import Mathlib

/-!
Verification of the Freebox Home custom integration (noiwid/freebox_custom).

Shallow embedding of the code in `base_class.py`, `router.py`, `cover.py`,
`binary_sensor.py` and `const.py`.  Python dictionaries holding device
records are modelled as association lists (insertion-ordered, unique keys
maintained by `upsert`), Python values that flow through the endpoint API
as the inductive type `PyVal`, remote API behaviour as an oracle
`ApiResult`, exceptions as `Except`, and log/dispatcher side effects as
explicit counters in the result of each operation.
-/

/-- Python values that flow through the Freebox endpoint API:
`none` is Python `None` (`VALUE_NOT_SET` in `const.py`), plus booleans,
integers and strings. -/
inductive PyVal where
  | none
  | bool (b : Bool)
  | int (n : Int)
  | str (s : String)
deriving DecidableEq

/-- `const.py`: `VALUE_NOT_SET = None`. -/
def VALUE_NOT_SET : PyVal := PyVal.none

/-- Python truthiness of a `PyVal` (`bool(v)`). -/
def pyTruthy : PyVal → Bool
  | PyVal.none => false
  | PyVal.bool b => b
  | PyVal.int n => n != 0
  | PyVal.str s => s != ""

/-- Python `not v` (always returns a Python bool). -/
def pyNot (v : PyVal) : PyVal := PyVal.bool (!pyTruthy v)

/-- Python `==` on the values above (numeric cross-type equality between
bools and ints, as in Python where `True == 1`). -/
def pyEq : PyVal → PyVal → Bool
  | PyVal.none, PyVal.none => true
  | PyVal.bool a, PyVal.bool b => a == b
  | PyVal.int a, PyVal.int b => a == b
  | PyVal.bool a, PyVal.int b => (if a then (1 : Int) else 0) == b
  | PyVal.int a, PyVal.bool b => a == (if b then (1 : Int) else 0)
  | PyVal.str a, PyVal.str b => a == b
  | _, _ => false

/-- One element of a node's endpoint list (`show_endpoints` or
`type.endpoints` in the Freebox node JSON): the fields read by
`base_class.py`.  `value` is `Option.none` when the `"value"` key is
absent from the dictionary. -/
structure Endpoint where
  name : String
  ep_type : String
  id : Int
  value : Option PyVal
deriving DecidableEq

/-- The match predicate of `get_command_id` / `get_value`:
`x["name"] == name and x["ep_type"] == ep_type`. -/
def ep_matches (ep_type name : String) (x : Endpoint) : Bool :=
  x.name == name && x.ep_type == ep_type

/-- `base_class.py` `FreeboxHomeBaseClass.get_command_id`: first endpoint
matching both `ep_type` and `name` via `next(filter(...), None)`; its `id`
on a match, `VALUE_NOT_SET` otherwise. -/
def get_command_id (nodes : List Endpoint) (ep_type name : String) : PyVal :=
  match nodes.find? (ep_matches ep_type name) with
  | Option.none => VALUE_NOT_SET
  | Option.some node => PyVal.int node.id

/-- `base_class.py` `FreeboxHomeBaseClass.get_value`: first endpoint of the
node's `show_endpoints` matching both fields; `node.get("value",
VALUE_NOT_SET)` on a match, `VALUE_NOT_SET` otherwise. -/
def get_value (show_endpoints : List Endpoint) (ep_type name : String) : PyVal :=
  match show_endpoints.find? (ep_matches ep_type name) with
  | Option.none => VALUE_NOT_SET
  | Option.some node => node.value.getD VALUE_NOT_SET

/-- Behaviour of one call of the remote client
`api.home.get_home_endpoint_value(node_id, command_id)`: either it raises
`TimeoutError`, or it returns a response dictionary whose `"value"` entry
is the given `Option PyVal` (`Option.none` = key absent). -/
inductive ApiResult where
  | timeout
  | ok (value? : Option PyVal)
deriving DecidableEq

/-- Result of `get_home_endpoint_value`: the returned value, how many
times the remote network client was invoked, and how many timeout
warnings were logged. -/
structure GetOutcome where
  value : PyVal
  networkCalls : Nat
  timeoutWarnings : Nat
deriving DecidableEq

/-- `base_class.py` `FreeboxHomeBaseClass.get_home_endpoint_value`:
short-circuits to `VALUE_NOT_SET` with no network call when `command_id ==
VALUE_NOT_SET`; otherwise invokes the remote client (`api node_id
command_id`), catches `TimeoutError` into a logged warning and
`VALUE_NOT_SET`, and on success returns `node.get("value",
VALUE_NOT_SET)`.  It never raises. -/
def get_home_endpoint_value (api : Int → PyVal → ApiResult) (node_id : Int)
    (command_id : PyVal) : GetOutcome :=
  if command_id = VALUE_NOT_SET then
    { value := VALUE_NOT_SET, networkCalls := 0, timeoutWarnings := 0 }
  else
    match api node_id command_id with
    | ApiResult.timeout =>
        { value := VALUE_NOT_SET, networkCalls := 1, timeoutWarnings := 1 }
    | ApiResult.ok value? =>
        { value := value?.getD VALUE_NOT_SET, networkCalls := 1, timeoutWarnings := 0 }

/-- Result of `set_home_endpoint_value`: the boolean returned to the
caller and the list of remote `set` invocations performed (each records
`(node_id, command_id, value)`). -/
structure SetOutcome where
  success : Bool
  remoteCalls : List (Int × PyVal × PyVal)
deriving DecidableEq

/-- `base_class.py` `FreeboxHomeBaseClass.set_home_endpoint_value`:
returns `False` with no remote call when `command_id == VALUE_NOT_SET`;
otherwise performs `api.home.set_home_endpoint_value(node_id, command_id,
value)` and returns `True`.  The method body never references the local
device snapshot cache. -/
def set_home_endpoint_value (node_id : Int) (command_id value : PyVal) : SetOutcome :=
  if command_id = VALUE_NOT_SET then
    { success := false, remoteCalls := [] }
  else
    { success := true, remoteCalls := [(node_id, command_id, value)] }

/-- `set_home_endpoint_value` with the router's device snapshot cache
threaded through explicitly: the source method body contains no reference
to the cache, so the threaded cache passes through unchanged. -/
def set_home_endpoint_value_threaded {κ : Type} (cache : κ) (node_id : Int)
    (command_id value : PyVal) : SetOutcome × κ :=
  (set_home_endpoint_value node_id command_id value, cache)

/-! ### Python dictionaries as insertion-ordered association lists -/

/-- `d.get(k) is not None` on an association-list dictionary. -/
def hasKey {κ α : Type} [DecidableEq κ] (c : List (κ × α)) (k : κ) : Bool :=
  c.any (fun p => decide (p.1 = k))

/-- `d.get(k)` on an association-list dictionary. -/
def lookup {κ α : Type} [DecidableEq κ] (c : List (κ × α)) (k : κ) : Option α :=
  (c.find? (fun p => decide (p.1 = k))).map Prod.snd

/-- `d[k] = v` on an association-list dictionary: replace in place when
the key is present (Python dicts keep insertion order), append
otherwise. -/
def upsert {κ α : Type} [DecidableEq κ] (c : List (κ × α)) (k : κ) (v : α) :
    List (κ × α) :=
  if hasKey c k then c.map (fun p => if p.1 = k then (k, v) else p)
  else c ++ [(k, v)]

/-! ### `router.py` `FreeboxRouter.update_device_trackers` -/

/-- One entry of the fetched LAN host list: its key
`fbx_device["l2ident"]["id"]` (a MAC address) and the rest of the record,
abstracted as an opaque payload. -/
structure Device where
  mac : String
  payload : Nat
deriving DecidableEq

/-- The `for fbx_device in fbx_devices:` loop of `update_device_trackers`:
for each record, `new_device` becomes true when
`self.devices.get(device_mac) is None`, then the record is upserted.
Returns the final cache and the `new_device` flag. -/
def processDevices (cache : List (String × Device)) (ds : List Device)
    (new_device : Bool) : List (String × Device) × Bool :=
  match ds with
  | [] => (cache, new_device)
  | d :: rest =>
      processDevices (upsert cache d.mac d) rest
        (new_device || (lookup cache d.mac).isNone)

/-- Result of one run of `update_device_trackers`: the device snapshot
cache afterwards and how many times each dispatcher signal was sent. -/
structure TrackerRun where
  devices : List (String × Device)
  deviceUpdateSignals : Nat
  deviceNewSignals : Nat
deriving DecidableEq

/-- `router.py` `FreeboxRouter.update_device_trackers`: appends the
synthetic self-record for the gateway to the fetched list, runs the upsert
loop with `new_device = False`, always sends `signal_device_update` once,
and sends `signal_device_new` once iff `new_device` ended true. -/
def update_device_trackers (cache : List (String × Device))
    (fetched : List Device) (selfDevice : Device) : TrackerRun :=
  let r := processDevices cache (fetched ++ [selfDevice]) false
  { devices := r.1
    deviceUpdateSignals := 1
    deviceNewSignals := if r.2 then 1 else 0 }

/-! ### `router.py` `FreeboxRouter.update_home_devices` -/

/-- One record of the fetched home node list: the fields `router.py`
reads (`id`, `category`), plus the rest of the record as an opaque
payload. -/
structure HomeNode where
  id : Int
  category : String
  payload : Nat
deriving DecidableEq

/-- The category whitelist of `update_home_devices`. -/
def supported_categories : List String :=
  ["pir", "camera", "alarm", "dws", "kfb", "basic_shutter", "opener", "shutter"]

/-- Mutable state of `FreeboxRouter` relevant to `update_home_devices`:
the home device snapshot cache `self.home_devices` and the
`self._warning_once` flag. -/
structure RouterState where
  home_devices : List (Int × HomeNode)
  warning_once : Bool
deriving DecidableEq

/-- Behaviour of `api.home.get_home_nodes()` for one run: raises
`InsufficientPermissionsError`, or returns a node list. -/
inductive HomeNodesResult where
  | permissionError
  | ok (nodes : List HomeNode)
deriving DecidableEq

/-- The `for home_node in home_nodes:` loop of `update_home_devices`:
a node whose category is outside the whitelist is skipped, logging one
unsupported-category warning when `self._warning_once` is still false
(the flag itself is not modified inside the loop); a supported node sets
`new_device` when its id is absent and is upserted.  Returns the final
cache, the `new_device` flag and the number of warnings logged. -/
def processHomeNodes (cache : List (Int × HomeNode)) (warned : Bool)
    (ns : List HomeNode) (new_device : Bool) (warnCount : Nat) :
    List (Int × HomeNode) × Bool × Nat :=
  match ns with
  | [] => (cache, new_device, warnCount)
  | n :: rest =>
      if supported_categories.contains n.category then
        processHomeNodes (upsert cache n.id n) warned rest
          (new_device || (lookup cache n.id).isNone) warnCount
      else
        processHomeNodes cache warned rest new_device
          (if warned then warnCount else warnCount + 1)

/-- Result of one run of `update_home_devices`: the router state
afterwards and how many times each log line / dispatcher signal was
emitted. -/
structure HomeRun where
  state : RouterState
  unsupportedWarnings : Nat
  homeUpdateSignals : Nat
  homeNewSignals : Nat
  permissionWarnings : Nat
deriving DecidableEq

/-- `router.py` `FreeboxRouter.update_home_devices`: an
`InsufficientPermissionsError` from `get_home_nodes` is caught, one
permission warning is logged and the method returns with the state
untouched and no signal sent.  Otherwise the node loop runs,
`self._warning_once` is set to `True` after the loop,
`signal_home_device_update` is always sent once, and
`signal_home_device_new` is sent once iff some supported node id was
new. -/
def update_home_devices (st : RouterState) (fetch : HomeNodesResult) : HomeRun :=
  match fetch with
  | HomeNodesResult.permissionError =>
      { state := st
        unsupportedWarnings := 0
        homeUpdateSignals := 0
        homeNewSignals := 0
        permissionWarnings := 1 }
  | HomeNodesResult.ok ns =>
      let r := processHomeNodes st.home_devices st.warning_once ns false 0
      { state := { home_devices := r.1, warning_once := true }
        unsupportedWarnings := r.2.2
        homeUpdateSignals := 1
        homeNewSignals := if r.2.1 then 1 else 0
        permissionWarnings := 0 }

/-! ### `cover.py` `FreeboxShutter.update_current_position` -/

/-- The `state` blob read via `get_value("signal", "state")`, as seen by
`base64.b64decode(state)`: either decoding raises (`state` is `None`, not
a string, or not valid base64) or it yields a byte string. -/
inductive Blob where
  | undecodable
  | decoded (bytes : List Nat)
deriving DecidableEq

/-- The fallback expression
`(100 - position_set) if self._invert_position else position_set`. -/
def fallback_position (invert : Bool) (p : Int) : Int :=
  if invert then 100 - p else p

/-- `cover.py` `FreeboxShutter.update_current_position`, over the decoded
state blob, `position_set = get_value("signal", "position_set")`
(`Option.none` when that is `VALUE_NOT_SET`, i.e. Python `None`) and the
`self._invert_position` flag.  `Except.error ()` marks the places where
the Python raises (`TypeError` from `b64decode(None)` / `binascii.Error`
from invalid base64; `TypeError` from `100 - None` or `None > 0`), and
`Except.ok` carries the new `self._current_position` (which is `None`
when `position_set` is `None`, the blob has wrong length and
`_invert_position` is false).  The hex string of a 59-byte blob has
length 118; `hex_value[96:98]` and `hex_value[100:102]` are bytes 48 and
50; the magic markers are `"00"` (open) and `"c8"` (closed, 200). -/
def update_current_position (state : Blob) (position_set : Option Int)
    (invert : Bool) : Except Unit (Option Int) :=
  match state with
  | Blob.undecodable => Except.error ()
  | Blob.decoded bytes =>
      if bytes.length ≠ 59 then
        match position_set with
        | Option.none =>
            if invert then Except.error () else Except.ok Option.none
        | Option.some p => Except.ok (Option.some (fallback_position invert p))
      else
        let val_2 := (bytes.get? 50).getD 0
        if val_2 = 0 then Except.ok (Option.some 100)
        else if val_2 = 200 then Except.ok (Option.some 0)
        else
          match position_set with
          | Option.none => Except.error ()
          | Option.some p =>
              if 0 < p ∧ p < 100 then
                Except.ok (Option.some (fallback_position invert p))
              else Except.ok (Option.some 50)

/-! ### `binary_sensor.py` `FreeboxPir.async_watcher` -/

/-- Mutable state of a `FreeboxPir` entity: `self._detection` and
`self._had_timeout`. -/
structure PirState where
  detection : PyVal
  had_timeout : Bool
deriving DecidableEq

/-- The `try`/`except TimeoutError` body of `async_watcher`, as a
function of what the awaited getter did: `Except.ok detection` when it
returned, `Except.error ()` when a `TimeoutError` propagated out of it.
The `ok` branch clears `_had_timeout` and flips `_detection` when it
compares equal (`==`) to the retrieved value; the `except` branch logs
the parity warning on every second consecutive timeout.  Returns the new
state and the number of parity warnings logged. -/
def watcher_body (res : Except Unit PyVal) (st : PirState) : PirState × Nat :=
  match res with
  | Except.ok detection =>
      if pyEq st.detection detection then
        ({ detection := pyNot detection, had_timeout := false }, 0)
      else
        ({ detection := st.detection, had_timeout := false }, 0)
  | Except.error _ =>
      if st.had_timeout then
        ({ detection := st.detection, had_timeout := false }, 1)
      else
        ({ detection := st.detection, had_timeout := true }, 0)

/-- Result of one run of `async_watcher`: the entity state afterwards,
the timeout warnings logged inside `get_home_endpoint_value`, and the
parity warnings logged by the watcher's own `except TimeoutError`
branch. -/
structure WatcherOutcome where
  state : PirState
  baseTimeoutWarnings : Nat
  parityTimeoutWarnings : Nat
deriving DecidableEq

/-- `binary_sensor.py` `FreeboxPir.async_watcher`: awaits
`get_home_endpoint_value(self._command_trigger)` inside
`try`/`except TimeoutError`.  Since `get_home_endpoint_value` catches
`TimeoutError` itself and returns `VALUE_NOT_SET`, the awaited call
always returns normally (`Except.ok`), carrying the value it produced. -/
def async_watcher (api : Int → PyVal → ApiResult) (node_id : Int)
    (command_trigger : PyVal) (st : PirState) : WatcherOutcome :=
  let g := get_home_endpoint_value api node_id command_trigger
  let r := watcher_body (Except.ok g.value) st
  { state := r.1
    baseTimeoutWarnings := g.timeoutWarnings
    parityTimeoutWarnings := r.2 }

/-! ### Helper lemmas about the dictionary model -/

theorem hasKey_nil {κ α : Type} [DecidableEq κ] (k : κ) :
    hasKey ([] : List (κ × α)) k = false := rfl

theorem hasKey_cons {κ α : Type} [DecidableEq κ] (p : κ × α) (c : List (κ × α)) (k : κ) :
    hasKey (p :: c) k = (decide (p.1 = k) || hasKey c k) := by
  simp [hasKey]

theorem hasKey_map_update {κ α : Type} [DecidableEq κ] (c : List (κ × α))
    (k k2 : κ) (v : α) :
    hasKey (c.map fun p => if p.1 = k then (k, v) else p) k2 =
      (if k2 = k then hasKey c k else hasKey c k2) := by
  induction c with
  | nil => simp [hasKey]
  | cons p c ih =>
      by_cases hp : p.1 = k
      · by_cases hk : k2 = k
        · simp [hasKey_cons, hp, hk, List.map, ih]
        · simp only [List.map, hasKey_cons, ih]
          simp [hp, hk, Ne.symm hk]
      · by_cases hk : k2 = k
        · simp only [List.map, hasKey_cons, ih]
          simp [hp, hk]
        · simp only [List.map, hasKey_cons, ih]
          simp [hp, hk]

theorem hasKey_upsert {κ α : Type} [DecidableEq κ] (c : List (κ × α))
    (k k2 : κ) (v : α) :
    hasKey (upsert c k v) k2 = (decide (k2 = k) || hasKey c k2) := by
  unfold upsert
  by_cases h : hasKey c k
  · rw [if_pos h, hasKey_map_update]
    by_cases hk : k2 = k
    · simp [hk, h]
    · simp [hk]
  · rw [if_neg h]
    by_cases hk : k2 = k
    · subst hk
      simp [hasKey, h]
    · simp [hasKey, hk, Ne.symm hk]

theorem hasKey_upsert_self {κ α : Type} [DecidableEq κ] (c : List (κ × α))
    (k : κ) (v : α) : hasKey (upsert c k v) k = true := by
  simp [hasKey_upsert]

theorem hasKey_upsert_of_hasKey {κ α : Type} [DecidableEq κ] {c : List (κ × α)}
    {k2 : κ} (k : κ) (v : α) (h : hasKey c k2 = true) :
    hasKey (upsert c k v) k2 = true := by
  simp [hasKey_upsert, h]

theorem length_upsert {κ α : Type} [DecidableEq κ] (c : List (κ × α))
    (k : κ) (v : α) :
    (upsert c k v).length = if hasKey c k then c.length else c.length + 1 := by
  unfold upsert
  by_cases h : hasKey c k <;> simp [h]

theorem mem_upsert {κ α : Type} [DecidableEq κ] {c : List (κ × α)}
    {k : κ} {v : α} {q : κ × α} (hq : q ∈ upsert c k v) :
    q ∈ c ∨ q = (k, v) := by
  unfold upsert at hq
  by_cases h : hasKey c k
  · rw [if_pos h] at hq
    rcases List.mem_map.mp hq with ⟨p, hp, hfp⟩
    by_cases hpk : p.1 = k
    · right
      rw [if_pos hpk] at hfp
      exact hfp.symm
    · left
      rw [if_neg hpk] at hfp
      exact hfp ▸ hp
  · rw [if_neg h] at hq
    rcases List.mem_append.mp hq with hq | hq
    · exact Or.inl hq
    · exact Or.inr (List.mem_singleton.mp hq)

theorem lookup_isNone {κ α : Type} [DecidableEq κ] (c : List (κ × α)) (k : κ) :
    (lookup c k).isNone = !(hasKey c k) := by
  induction c with
  | nil => rfl
  | cons p c ih =>
      by_cases hp : p.1 = k
      · simp [lookup, hasKey_cons, List.find?, hp]
      · simp only [lookup, hasKey_cons, List.find?] at *
        simp [hp, ih]

/-! ### Lemmas about the `update_device_trackers` loop -/

theorem processDevices_hasKey_mono (ds : List Device) :
    ∀ (c : List (String × Device)) (b : Bool) (k : String),
      hasKey c k = true → hasKey (processDevices c ds b).1 k = true := by
  induction ds with
  | nil => intro c b k h; exact h
  | cons d rest ih =>
      intro c b k h
      exact ih _ _ k (hasKey_upsert_of_hasKey d.mac d h)

theorem processDevices_inserts (ds : List Device) :
    ∀ (c : List (String × Device)) (b : Bool) (d : Device), d ∈ ds →
      hasKey (processDevices c ds b).1 d.mac = true := by
  induction ds with
  | nil => intro c b d h; cases h
  | cons d0 rest ih =>
      intro c b d h
      rcases List.mem_cons.mp h with h | h
      · subst h
        exact processDevices_hasKey_mono rest _ _ _ (hasKey_upsert_self c d.mac d)
      · exact ih _ _ d h

theorem processDevices_flag (ds : List Device) :
    ∀ (c : List (String × Device)) (b : Bool),
      ((processDevices c ds b).2 = true ↔
        b = true ∨ ∃ d ∈ ds, hasKey c d.mac = false) := by
  induction ds with
  | nil => intro c b; simp [processDevices]
  | cons d0 rest ih =>
      intro c b
      show (processDevices (upsert c d0.mac d0) rest
              (b || (lookup c d0.mac).isNone)).2 = true ↔ _
      rw [ih]
      constructor
      · rintro (hb | ⟨d, hd, hk⟩)
        · rcases Bool.or_eq_true_iff.mp hb with hb | hb
          · exact Or.inl hb
          · rw [lookup_isNone, Bool.not_eq_eq_eq_not, Bool.not_true] at hb
            exact Or.inr ⟨d0, List.mem_cons_self d0 rest, hb⟩
        · rw [hasKey_upsert, Bool.or_eq_false_iff] at hk
          exact Or.inr ⟨d, List.mem_cons_of_mem d0 hd, hk.2⟩
      · rintro (hb | ⟨d, hd, hk⟩)
        · exact Or.inl (Bool.or_eq_true_iff.mpr (Or.inl hb))
        · rcases List.mem_cons.mp hd with hd | hd
          · subst hd
            refine Or.inl (Bool.or_eq_true_iff.mpr (Or.inr ?_))
            rw [lookup_isNone, hk]
            rfl
          · by_cases hm : d.mac = d0.mac
            · refine Or.inl (Bool.or_eq_true_iff.mpr (Or.inr ?_))
              rw [lookup_isNone, ← hm, hk]
              rfl
            · refine Or.inr ⟨d, hd, ?_⟩
              rw [hasKey_upsert, Bool.or_eq_false_iff]
              exact ⟨by simp [hm], hk⟩

theorem processDevices_stable (ds : List Device) :
    ∀ (c : List (String × Device)) (b : Bool),
      (∀ d ∈ ds, hasKey c d.mac = true) →
      (processDevices c ds b).1.length = c.length ∧
        (processDevices c ds b).2 = b := by
  induction ds with
  | nil => intro c b _; exact ⟨rfl, rfl⟩
  | cons d0 rest ih =>
      intro c b h
      have h0 : hasKey c d0.mac = true := h d0 (List.mem_cons_self d0 rest)
      have hrest : ∀ d ∈ rest, hasKey (upsert c d0.mac d0) d.mac = true :=
        fun d hd => hasKey_upsert_of_hasKey d0.mac d0 (h d (List.mem_cons_of_mem d0 hd))
      have hflag : (b || (lookup c d0.mac).isNone) = b := by
        rw [lookup_isNone, h0]
        simp
      show (processDevices (upsert c d0.mac d0) rest
              (b || (lookup c d0.mac).isNone)).1.length = c.length ∧
           (processDevices (upsert c d0.mac d0) rest
              (b || (lookup c d0.mac).isNone)).2 = b
      rw [hflag]
      rcases ih (upsert c d0.mac d0) b hrest with ⟨hlen, hfl⟩
      refine ⟨?_, hfl⟩
      rw [hlen, length_upsert, if_pos h0]

/-! ### Lemmas about the `update_home_devices` loop -/

theorem processHomeNodes_cons {n : HomeNode} (c : List (Int × HomeNode))
    (warned : Bool) (rest : List HomeNode) (b : Bool) (w : Nat) :
    processHomeNodes c warned (n :: rest) b w =
      if supported_categories.contains n.category = true then
        processHomeNodes (upsert c n.id n) warned rest
          (b || (lookup c n.id).isNone) w
      else
        processHomeNodes c warned rest b (if warned then w else w + 1) := rfl

theorem processHomeNodes_warn_of_warned (ns : List HomeNode) :
    ∀ (c : List (Int × HomeNode)) (b : Bool) (w : Nat),
      (processHomeNodes c true ns b w).2.2 = w := by
  induction ns with
  | nil => intro c b w; rfl
  | cons n rest ih =>
      intro c b w
      rw [processHomeNodes_cons]
      by_cases hn : supported_categories.contains n.category = true
      · rw [if_pos hn]
        exact ih _ _ w
      · rw [if_neg hn]
        exact ih _ _ w

theorem processHomeNodes_warn_of_unwarned (ns : List HomeNode) :
    ∀ (c : List (Int × HomeNode)) (b : Bool) (w : Nat),
      (processHomeNodes c false ns b w).2.2 =
        w + ns.countP (fun n => !(supported_categories.contains n.category)) := by
  induction ns with
  | nil => intro c b w; simp [processHomeNodes]
  | cons n rest ih =>
      intro c b w
      rw [processHomeNodes_cons]
      by_cases hn : supported_categories.contains n.category = true
      · rw [if_pos hn, ih, List.countP_cons]
        have hm : n.category ∈ supported_categories := by simpa using hn
        simp [hm]
      · rw [if_neg hn, ih, List.countP_cons]
        have hm : n.category ∉ supported_categories := by simpa using hn
        simp [hm]
        omega

theorem processHomeNodes_invariant (ns : List HomeNode) :
    ∀ (c : List (Int × HomeNode)) (warned b : Bool) (w : Nat),
      (∀ q ∈ c, supported_categories.contains q.2.category = true) →
      ∀ q ∈ (processHomeNodes c warned ns b w).1,
        supported_categories.contains q.2.category = true := by
  induction ns with
  | nil => intro c warned b w h q hq; exact h q hq
  | cons n rest ih =>
      intro c warned b w h q hq
      rw [processHomeNodes_cons] at hq
      by_cases hn : supported_categories.contains n.category = true
      · rw [if_pos hn] at hq
        refine ih _ warned _ w ?_ q hq
        intro q2 hq2
        rcases mem_upsert hq2 with hq2 | hq2
        · exact h q2 hq2
        · rw [hq2]
          exact hn
      · rw [if_neg hn] at hq
        exact ih _ warned _ _ h q hq

/-! ### Claim theorems -/

/-- C1: for every endpoint list and every (kind, name) pair,
`get_command_id` returns the sentinel `VALUE_NOT_SET` iff no element of
the list matches both `ep_type` and `name` exactly; otherwise it returns
the identifier of the first matching element; it is a total Lean function
(the source raises nothing: `next(filter(...), None)` cannot throw), and
being a pure function, calling it twice with the same arguments gives the
same result (third conjunct). -/
theorem get_command_id_resolve_contract (nodes : List Endpoint) (ep_type name : String) :
    (get_command_id nodes ep_type name = VALUE_NOT_SET ↔
      ∀ x ∈ nodes, ¬(x.name = name ∧ x.ep_type = ep_type))
    ∧ (∀ pre e post, nodes = pre ++ e :: post →
        (∀ x ∈ pre, ¬(x.name = name ∧ x.ep_type = ep_type)) →
        e.name = name → e.ep_type = ep_type →
        get_command_id nodes ep_type name = PyVal.int e.id)
    ∧ get_command_id nodes ep_type name = get_command_id nodes ep_type name := by
  refine ⟨?_, ?_, rfl⟩
  · cases hf : nodes.find? (ep_matches ep_type name) with
    | none =>
        have hall := List.find?_eq_none.mp hf
        constructor
        · intro _ x hx
          have := hall x hx
          simp [ep_matches] at this
          intro hcon
          exact absurd hcon.2 (this hcon.1)
        · intro _
          simp [get_command_id, hf]
    | some e =>
        have he : ep_matches ep_type name e = true := List.find?_some hf
        have hmem : e ∈ nodes := List.mem_of_find?_eq_some hf
        simp [ep_matches] at he
        constructor
        · intro habs
          simp [get_command_id, hf, VALUE_NOT_SET] at habs
        · intro hnone
          exact absurd ⟨he.1, he.2⟩ (hnone e hmem)
  · intro pre e post hsplit hpre hn ht
    have hprenone : pre.find? (ep_matches ep_type name) = Option.none := by
      apply List.find?_eq_none.mpr
      intro x hx hmatch
      simp [ep_matches] at hmatch
      exact absurd ⟨hmatch.1, hmatch.2⟩ (hpre x hx)
    have hme : ep_matches ep_type name e = true := by
      simp [ep_matches, hn, ht]
    have : nodes.find? (ep_matches ep_type name) = Option.some e := by
      rw [hsplit, List.find?_append, hprenone, Option.none_or,
        List.find?_cons_of_pos _ hme]
    simp [get_command_id, this]

/-- Witness for C1 at a concrete endpoint list: the singleton list whose
only element matches resolves to that element's id. -/
theorem get_command_id_resolve_contract_witness :
    get_command_id [Endpoint.mk "up" "slot" 4 Option.none] "slot" "up" = PyVal.int 4 :=
  (get_command_id_resolve_contract [Endpoint.mk "up" "slot" 4 Option.none] "slot" "up").2.1
    [] (Endpoint.mk "up" "slot" 4 Option.none) [] rfl
    (by intro x hx; cases hx) rfl rfl

/-- C3: `get_home_endpoint_value` called with `command_id = VALUE_NOT_SET`
returns `VALUE_NOT_SET` without invoking the remote network client (zero
network calls); and when the remote call raises its timeout, it returns
`VALUE_NOT_SET` instead of propagating the exception (the embedding is a
total function: no exception escapes). -/
theorem get_home_endpoint_value_fail_soft (api : Int → PyVal → ApiResult)
    (node_id : Int) (command_id : PyVal) :
    get_home_endpoint_value api node_id VALUE_NOT_SET =
      { value := VALUE_NOT_SET, networkCalls := 0, timeoutWarnings := 0 }
    ∧ (api node_id command_id = ApiResult.timeout →
        (get_home_endpoint_value api node_id command_id).value = VALUE_NOT_SET) := by
  constructor
  · rfl
  · intro htimeout
    by_cases hc : command_id = VALUE_NOT_SET
    · simp [get_home_endpoint_value, hc]
    · simp [get_home_endpoint_value, hc, htimeout]

/-- Witness for C3: a client that always times out still yields
`VALUE_NOT_SET` for a set command id. -/
theorem get_home_endpoint_value_fail_soft_witness :
    (get_home_endpoint_value (fun _ _ => ApiResult.timeout) 1 (PyVal.int 5)).value =
      VALUE_NOT_SET :=
  (get_home_endpoint_value_fail_soft (fun _ _ => ApiResult.timeout) 1 (PyVal.int 5)).2 rfl

/-- C5: `set_home_endpoint_value` returns `False` and performs no remote
call when `command_id = VALUE_NOT_SET`; otherwise it performs exactly the
one remote call and returns `True`; and with the router's device snapshot
cache threaded through, the cache is returned unchanged in every case
(the source method body never references it). -/
theorem set_home_endpoint_value_fail_soft {κ : Type} (cache : κ) (node_id : Int)
    (command_id value : PyVal) :
    set_home_endpoint_value node_id VALUE_NOT_SET value =
      { success := false, remoteCalls := [] }
    ∧ (command_id ≠ VALUE_NOT_SET →
        set_home_endpoint_value node_id command_id value =
          { success := true, remoteCalls := [(node_id, command_id, value)] })
    ∧ (set_home_endpoint_value_threaded cache node_id command_id value).2 = cache := by
  refine ⟨rfl, ?_, rfl⟩
  intro hc
  simp [set_home_endpoint_value, hc]

/-- Witness for C5: a set command id yields success and the single
recorded remote call. -/
theorem set_home_endpoint_value_fail_soft_witness :
    set_home_endpoint_value 1 (PyVal.int 3) (PyVal.bool true) =
      { success := true, remoteCalls := [(1, PyVal.int 3, PyVal.bool true)] } :=
  (set_home_endpoint_value_fail_soft (0 : Nat) 1 (PyVal.int 3) (PyVal.bool true)).2.1
    (by decide)

/-- C10: the `UNSET` sentinel is the embedding of Python `None`
(`VALUE_NOT_SET = PyVal.none`), and the public read operations conflate
distinct conditions into that one result: `get_value` returns it both
when no endpoint matches the pair and when the first matching endpoint
carries no `"value"` field, and `get_home_endpoint_value` returns it when
the remote response lacks a `"value"` key — the caller sees the identical
value in all three situations. -/
theorem unset_sentinel_conflation (eps : List Endpoint) (ty nm : String)
    (e : Endpoint) (api : Int → PyVal → ApiResult) (nid : Int) (cmd : PyVal) :
    VALUE_NOT_SET = PyVal.none
    ∧ (eps.find? (ep_matches ty nm) = Option.none → get_value eps ty nm = VALUE_NOT_SET)
    ∧ (eps.find? (ep_matches ty nm) = Option.some e → e.value = Option.none →
        get_value eps ty nm = VALUE_NOT_SET)
    ∧ (cmd ≠ VALUE_NOT_SET → api nid cmd = ApiResult.ok Option.none →
        (get_home_endpoint_value api nid cmd).value = VALUE_NOT_SET) := by
  refine ⟨rfl, ?_, ?_, ?_⟩
  · intro h
    simp [get_value, h]
  · intro h1 h2
    simp [get_value, h1, h2]
  · intro h1 h2
    simp [get_home_endpoint_value, h1, h2]

/-- Witness for C10: a node whose matching endpoint has no `"value"`
field, and a remote response without a `"value"` key, both produce the
sentinel. -/
theorem unset_sentinel_conflation_witness :
    get_value [Endpoint.mk "state" "signal" 7 Option.none] "signal" "state" = VALUE_NOT_SET
    ∧ (get_home_endpoint_value (fun _ _ => ApiResult.ok Option.none) 1 (PyVal.int 7)).value =
        VALUE_NOT_SET :=
  ⟨(unset_sentinel_conflation [Endpoint.mk "state" "signal" 7 Option.none] "signal" "state"
      (Endpoint.mk "state" "signal" 7 Option.none)
      (fun _ _ => ApiResult.ok Option.none) 1 (PyVal.int 7)).2.2.1 (by decide) rfl,
   (unset_sentinel_conflation [Endpoint.mk "state" "signal" 7 Option.none] "signal" "state"
      (Endpoint.mk "state" "signal" 7 Option.none)
      (fun _ _ => ApiResult.ok Option.none) 1 (PyVal.int 7)).2.2.2 (by decide) rfl⟩

theorem update_device_trackers_devices (cache : List (String × Device))
    (fetched : List Device) (selfDevice : Device) :
    (update_device_trackers cache fetched selfDevice).devices =
      (processDevices cache (fetched ++ [selfDevice]) false).1 := rfl

theorem update_device_trackers_new (cache : List (String × Device))
    (fetched : List Device) (selfDevice : Device) :
    (update_device_trackers cache fetched selfDevice).deviceNewSignals =
      if (processDevices cache (fetched ++ [selfDevice]) false).2 then 1 else 0 := rfl

/-- C2: one run of `update_device_trackers` appends the synthetic
self-record for the gateway, upserts every entry keyed by its id (every
processed mac, the gateway's included, has an entry afterwards), always
emits exactly one `signal_device_update`, and emits `signal_device_new`
exactly once iff at least one processed id was absent from the cache
before the run; a second run with the identical device list leaves the
cache with the same number of entries and emits no `signal_device_new`
(and again exactly one `signal_device_update`). -/
theorem update_device_trackers_contract (cache : List (String × Device))
    (fetched : List Device) (selfDevice : Device) :
    (update_device_trackers cache fetched selfDevice).deviceUpdateSignals = 1
    ∧ (∀ d ∈ fetched ++ [selfDevice],
        hasKey (update_device_trackers cache fetched selfDevice).devices d.mac = true)
    ∧ ((update_device_trackers cache fetched selfDevice).deviceNewSignals = 1 ↔
        ∃ d ∈ fetched ++ [selfDevice], hasKey cache d.mac = false)
    ∧ (update_device_trackers
          (update_device_trackers cache fetched selfDevice).devices
          fetched selfDevice).devices.length =
        (update_device_trackers cache fetched selfDevice).devices.length
    ∧ (update_device_trackers
          (update_device_trackers cache fetched selfDevice).devices
          fetched selfDevice).deviceNewSignals = 0
    ∧ (update_device_trackers
          (update_device_trackers cache fetched selfDevice).devices
          fetched selfDevice).deviceUpdateSignals = 1 := by
  have hins : ∀ d ∈ fetched ++ [selfDevice],
      hasKey (update_device_trackers cache fetched selfDevice).devices d.mac = true := by
    intro d hd
    rw [update_device_trackers_devices]
    exact processDevices_inserts (fetched ++ [selfDevice]) cache false d hd
  have hflag := processDevices_flag (fetched ++ [selfDevice]) cache false
  have hstable := processDevices_stable (fetched ++ [selfDevice])
    (update_device_trackers cache fetched selfDevice).devices false
    (by
      intro d hd
      exact hins d hd)
  refine ⟨rfl, hins, ?_, ?_, ?_, rfl⟩
  · rw [update_device_trackers_new]
    by_cases h2 : (processDevices cache (fetched ++ [selfDevice]) false).2 = true
    · rw [if_pos h2]
      simp only [true_iff]
      rcases hflag.mp h2 with hb | hb
      · cases hb
      · exact hb
    · rw [if_neg h2]
      simp only [Bool.not_eq_true] at h2
      constructor
      · intro h
        cases h
      · intro hex
        have := hflag.mpr (Or.inr hex)
        rw [h2] at this
        cases this
  · rw [update_device_trackers_devices (update_device_trackers cache fetched selfDevice).devices]
    exact hstable.1
  · rw [update_device_trackers_new]
    rw [hstable.2]
    rfl

/-- Witness for C2: starting from an empty cache, the run that introduces
one previously-unseen host id emits the new-device signal. -/
theorem update_device_trackers_contract_witness :
    (update_device_trackers [] [Device.mk "aa" 0] (Device.mk "bb" 1)).deviceNewSignals = 1 :=
  (update_device_trackers_contract [] [Device.mk "aa" 0] (Device.mk "bb" 1)).2.2.1.mpr
    ⟨Device.mk "aa" 0, by simp, rfl⟩

/-- C4: when `get_home_nodes` raises `InsufficientPermissionsError`,
`update_home_devices` returns normally with the router state (home-device
snapshot cache and `_warning_once` flag) exactly as before; it emits no
`signal_home_device_update` and no `signal_home_device_new` for that
cycle, only the one permission warning; and the failure does not disable
future poll attempts: a subsequent run behaves exactly as it would have
without the failed cycle. -/
theorem update_home_devices_permission_denied_soft (st : RouterState)
    (fetch2 : HomeNodesResult) :
    update_home_devices st HomeNodesResult.permissionError =
      { state := st, unsupportedWarnings := 0, homeUpdateSignals := 0,
        homeNewSignals := 0, permissionWarnings := 1 }
    ∧ update_home_devices
        (update_home_devices st HomeNodesResult.permissionError).state fetch2 =
      update_home_devices st fetch2 :=
  ⟨rfl, rfl⟩

/-- C9: every run of `update_home_devices` preserves the invariant that
every record stored in the home-device snapshot cache has a category in
the supported set {pir, camera, alarm, dws, kfb, basic_shutter, opener,
shutter}; nodes with any other category are never inserted. -/
theorem home_devices_supported_invariant (st : RouterState) (fetch : HomeNodesResult)
    (h : ∀ q ∈ st.home_devices, supported_categories.contains q.2.category = true) :
    ∀ q ∈ (update_home_devices st fetch).state.home_devices,
      supported_categories.contains q.2.category = true := by
  cases fetch with
  | permissionError => exact h
  | ok ns =>
      exact processHomeNodes_invariant ns st.home_devices st.warning_once false 0 h

/-- Witness for C9: from an empty cache, a fetch containing an
unsupported node ("light") and a supported one ("pir") leaves only
supported categories in the cache; the theorem applies to the stored
"pir" record. -/
theorem home_devices_supported_invariant_witness :
    supported_categories.contains ((2 : Int), HomeNode.mk 2 "pir" 0).2.category = true :=
  home_devices_supported_invariant
    { home_devices := [], warning_once := false }
    (HomeNodesResult.ok [HomeNode.mk 1 "light" 0, HomeNode.mk 2 "pir" 0])
    (by intro q hq; cases hq)
    ((2 : Int), HomeNode.mk 2 "pir" 0)
    (by decide)

/-- C6 counterexample: the unsupported-category diagnostic is NOT logged
at most once per process lifetime.  On a fresh router (`_warning_once =
False`), one run whose fetched list holds two nodes with unsupported
categories logs the warning twice: the loop guards each warning on
`self._warning_once`, but the flag is only set to `True` after the loop,
so every unsupported node of the first successfully fetched list logs. -/
theorem unsupported_warning_not_once_counterexample :
    (update_home_devices { home_devices := [], warning_once := false }
      (HomeNodesResult.ok [HomeNode.mk 1 "light" 0, HomeNode.mk 2 "light" 1])
      ).unsupportedWarnings = 2 := by decide

/-- C6 amended: across every sequence of `update_home_devices` runs, the
unsupported-category diagnostic is logged only while `_warning_once` is
still false, i.e. only up to and including the first run that fetches the
node list successfully; that run logs one warning per unsupported node in
its list (not at most one in total), every later run logs none, and a
permission-denied run leaves the flag unchanged. -/
theorem unsupported_warning_first_run_only (st : RouterState)
    (ns : List HomeNode) (fetch : HomeNodesResult) :
    (st.warning_once = true → (update_home_devices st fetch).unsupportedWarnings = 0)
    ∧ (update_home_devices st (HomeNodesResult.ok ns)).state.warning_once = true
    ∧ (st.warning_once = false →
        (update_home_devices st (HomeNodesResult.ok ns)).unsupportedWarnings =
          ns.countP (fun n => !(supported_categories.contains n.category)))
    ∧ (update_home_devices st HomeNodesResult.permissionError).state.warning_once =
        st.warning_once := by
  refine ⟨?_, rfl, ?_, rfl⟩
  · intro hw
    cases fetch with
    | permissionError => rfl
    | ok ns2 =>
        show (processHomeNodes st.home_devices st.warning_once ns2 false 0).2.2 = 0
        rw [hw]
        exact processHomeNodes_warn_of_warned ns2 st.home_devices false 0
  · intro hw
    show (processHomeNodes st.home_devices st.warning_once ns false 0).2.2 = _
    rw [hw, processHomeNodes_warn_of_unwarned ns st.home_devices false 0]
    exact Nat.zero_add _

/-- Witness for C6 amended: once `_warning_once` is true, a run over a
list with an unsupported node logs zero unsupported-category warnings. -/
theorem unsupported_warning_first_run_only_witness :
    (update_home_devices { home_devices := [], warning_once := true }
      (HomeNodesResult.ok [HomeNode.mk 1 "light" 0])).unsupportedWarnings = 0 :=
  (unsupported_warning_first_run_only { home_devices := [], warning_once := true }
    [HomeNode.mk 1 "light" 0]
    (HomeNodesResult.ok [HomeNode.mk 1 "light" 0])).1 rfl

/-- C7 counterexample: `update_current_position` is not raise-free for
every input state blob.  When the blob is undecodable (e.g. the
`"signal"/"state"` value is `VALUE_NOT_SET`, i.e. Python `None`, or not
valid base64), `base64.b64decode(state)` raises before any fallback runs
— even with a perfectly good `position_set` of 30. -/
theorem update_current_position_raises_counterexample :
    update_current_position Blob.undecodable (Option.some 30) true =
      Except.error () := rfl

/-- C7 amended: for every state blob that base64-decodes successfully and
every integer `position_set`, `update_current_position` does not raise;
when the decoded blob is not of the expected length (59 bytes, hex length
118) it falls back to the `position_set`-derived value, and when the
marker byte matches neither the open (`"00"`) nor the closed (`"c8"`)
magic value and `position_set` is at a boundary (not strictly between 0
and 100) it sets the position to the midpoint 50.  (An undecodable blob,
or a `None` `position_set` on the raising paths, still raises, which is
what forces the amendment.) -/
theorem update_current_position_decoded_contract (bytes : List Nat) (p : Int)
    (invert : Bool) :
    update_current_position (Blob.decoded bytes) (Option.some p) invert ≠
        Except.error ()
    ∧ (bytes.length ≠ 59 →
        update_current_position (Blob.decoded bytes) (Option.some p) invert =
          Except.ok (Option.some (fallback_position invert p)))
    ∧ (bytes.length = 59 →
        (bytes.get? 50).getD 0 ≠ 0 → (bytes.get? 50).getD 0 ≠ 200 →
        ¬(0 < p ∧ p < 100) →
        update_current_position (Blob.decoded bytes) (Option.some p) invert =
          Except.ok (Option.some 50)) := by
  refine ⟨?_, ?_, ?_⟩
  · dsimp only [update_current_position]
    split_ifs <;> simp
  · intro hl
    dsimp only [update_current_position]
    rw [if_pos hl]
  · intro hl h0 h200 hp
    dsimp only [update_current_position]
    rw [if_neg (show ¬bytes.length ≠ 59 from fun h => h hl), if_neg h0, if_neg h200,
      if_neg hp]

/-- Witness for C7 amended: a decoded blob of the wrong length with
`position_set = 40` and inversion falls back to 60, and a 59-byte blob
with an unknown marker and boundary `position_set = 0` yields 50. -/
theorem update_current_position_decoded_contract_witness :
    update_current_position (Blob.decoded []) (Option.some 40) true =
      Except.ok (Option.some 60)
    ∧ update_current_position (Blob.decoded (List.replicate 59 7)) (Option.some 0) true =
      Except.ok (Option.some 50) :=
  ⟨(update_current_position_decoded_contract [] 40 true).2.1 (by decide),
   (update_current_position_decoded_contract (List.replicate 59 7) 0 true).2.2
     (by decide) (by decide) (by decide) (by decide)⟩

/-- C8: the claimed every-other-consecutive-timeout logging of
`FreeboxPir.async_watcher` never happens in the code: the awaited
`get_home_endpoint_value` catches `TimeoutError` itself (returning
`VALUE_NOT_SET` and logging its own warning each time), so the watcher's
`except TimeoutError` parity branch is unreachable dead code.  At the
failing input — two consecutive polls against an always-timing-out API —
each of the two timeouts logs the base warning (two warnings, not one),
the parity warning never fires, `_had_timeout` stays false (the parity
counter never advances), and the value is downgraded to `VALUE_NOT_SET`
rather than propagated. -/
theorem pir_watcher_timeout_logging_bug :
    (async_watcher (fun _ _ => ApiResult.timeout) 1 (PyVal.int 5)
      { detection := PyVal.bool false, had_timeout := false }).baseTimeoutWarnings = 1
    ∧ (async_watcher (fun _ _ => ApiResult.timeout) 1 (PyVal.int 5)
        { detection := PyVal.bool false, had_timeout := false }).parityTimeoutWarnings = 0
    ∧ (async_watcher (fun _ _ => ApiResult.timeout) 1 (PyVal.int 5)
        (async_watcher (fun _ _ => ApiResult.timeout) 1 (PyVal.int 5)
          { detection := PyVal.bool false, had_timeout := false }).state
        ).baseTimeoutWarnings = 1
    ∧ (async_watcher (fun _ _ => ApiResult.timeout) 1 (PyVal.int 5)
        (async_watcher (fun _ _ => ApiResult.timeout) 1 (PyVal.int 5)
          { detection := PyVal.bool false, had_timeout := false }).state
        ).parityTimeoutWarnings = 0
    ∧ (async_watcher (fun _ _ => ApiResult.timeout) 1 (PyVal.int 5)
        (async_watcher (fun _ _ => ApiResult.timeout) 1 (PyVal.int 5)
          { detection := PyVal.bool false, had_timeout := false }).state
        ).state.had_timeout = false
    ∧ (get_home_endpoint_value (fun _ _ => ApiResult.timeout) 1 (PyVal.int 5)).value =
        VALUE_NOT_SET :=
  ⟨rfl, rfl, rfl, rfl, rfl, rfl⟩
